import Mathlib

/-!
Shallow embedding of the user-registration service
(`src/examples/backend/python/user_service.py`) and of the JWT token
management demo (`src/examples/production/jwt_auth_fastapi.py`).

Strings are modelled as Lean `String`s (lists of characters); the character
classes of the two validation regexes are ASCII classes, translated to
explicit character predicates.  Python's `re.match(r"^...$", s)` anchors at
the start of the string and its `$` matches either at the end of the string
or just before a single final newline; `pyMatchDollar` encodes exactly that
semantics.
-/

namespace UserService

/-- `UserDTO` from `user_service.py`: immutable record returned by the
repository.  `created_at` (a `datetime` in the source) is an abstract
timestamp. -/
structure UserDTO where
  id : Nat
  username : String
  email : String
  created_at : Nat
deriving DecidableEq, Repr

/-- The error taxonomy of `create_user`:
`InvalidUsernameError`, `InvalidEmailError`, `WeakPasswordError`,
`UserAlreadyExistsError`. -/
inductive UserError where
  | invalidUsername
  | invalidEmail
  | weakPassword
  | alreadyExists
deriving DecidableEq, Repr

/-- A collaborator call, recorded in order of occurrence so that the
side-effect discipline of the service ("save called exactly once", "no
collaborator touched on validation failure") is observable. -/
inductive Event where
  | findByEmail (email : String)
  | hash (password : String)
  | save (username email password_hash : String)
deriving DecidableEq, Repr

/-- The `UserRepository` protocol: `save`, `find_by_id`, `find_by_email`. -/
structure UserRepository where
  save : String → String → String → UserDTO
  find_by_id : Nat → Option UserDTO
  find_by_email : String → Option UserDTO

/-- The `PasswordHasher` protocol (only `hash` is ever called by the
service). -/
structure PasswordHasher where
  hash : String → String

/-- Character class `[a-zA-Z0-9_]` of `USERNAME_REGEX`. -/
def isWordChar (c : Char) : Bool :=
  c.isAlphanum || c = '_'

/-- Character class `[a-zA-Z0-9._%+-]` (the local part of `EMAIL_REGEX`). -/
def isLocalChar (c : Char) : Bool :=
  c.isAlphanum || c = '.' || c = '_' || c = '%' || c = '+' || c = '-'

/-- Character class `[a-zA-Z0-9.-]` (the domain part of `EMAIL_REGEX`). -/
def isDomainChar (c : Char) : Bool :=
  c.isAlphanum || c = '.' || c = '-'

/-- Python `re.match` with a pattern of the form `^P$`: the whole string
must match `P`, where `$` matches at the end of the string or just before
one final newline.  So `s` matches iff `P` matches all of `s`, or the last
character of `s` is `'\n'` and `P` matches everything before it. -/
def pyMatchDollar (P : List Char → Bool) (s : List Char) : Bool :=
  P s || (s.getLast? = some '\n' && P s.dropLast)

/-- Body of `USERNAME_REGEX = ^[a-zA-Z0-9_]{3,30}$` (without the `$`
semantics, which `pyMatchDollar` adds): 3 to 30 word characters. -/
def usernameCore (cs : List Char) : Bool :=
  decide (3 ≤ cs.length) && decide (cs.length ≤ 30) && cs.all isWordChar

/-- Body of the domain half of `EMAIL_REGEX`: `[a-zA-Z0-9.-]+\.[a-zA-Z]{2,}`.
The top-level label `[a-zA-Z]{2,}` contains no dot, so a matching
decomposition, when one exists, must split at the LAST dot of the string;
checking that single candidate split is therefore equivalent to the
existential match semantics of the regex. -/
def domainCore (dom : List Char) : Bool :=
  let r := dom.reverse
  let tldR := r.takeWhile (fun c => c ≠ '.')
  match r.drop tldR.length with
  | '.' :: preR =>
      !preR.isEmpty && preR.all isDomainChar &&
        decide (2 ≤ tldR.length) && tldR.all Char.isAlpha
  | _ => false

/-- Body of `EMAIL_REGEX = ^[a-zA-Z0-9._%+-]+@[a-zA-Z0-9.-]+\.[a-zA-Z]{2,}$`
(without the `$` semantics).  `'@'` is not a local-part character, so the
local part of a matching decomposition is exactly the maximal local-part
prefix; checking that single candidate is equivalent to the regex's
existential match semantics. -/
def emailCore (cs : List Char) : Bool :=
  let localPart := cs.takeWhile isLocalChar
  !localPart.isEmpty &&
    match cs.drop localPart.length with
    | '@' :: dom => domainCore dom
    | _ => false

/-- `_validate_username`, as a predicate: the two failure branches (`not
username` and the regex mismatch) both raise `InvalidUsernameError`. -/
def usernameOk (username : String) : Bool :=
  !username.isEmpty && pyMatchDollar usernameCore username.data

/-- `_validate_email`, as a predicate. -/
def emailOk (email : String) : Bool :=
  !email.isEmpty && pyMatchDollar emailCore email.data

/-- `_validate_password`: length at least 12 and at least one uppercase
letter, one lowercase letter and one digit, by explicit scans (the
`isupper` / `islower` / `isdigit` character tests are modelled on their
ASCII fragment, like the regex character classes). -/
def passwordOk (password : String) : Bool :=
  decide (12 ≤ password.length) &&
    password.data.any Char.isUpper &&
    password.data.any Char.isLower &&
    password.data.any Char.isDigit

/-- `UserService.create_user`.  Exceptions become `Except.error`; the second
component records every collaborator call in order. -/
def create_user (repo : UserRepository) (hasher : PasswordHasher)
    (username email password : String) :
    Except UserError UserDTO × List Event :=
  if !usernameOk username then (.error .invalidUsername, [])
  else if !emailOk email then (.error .invalidEmail, [])
  else if !passwordOk password then (.error .weakPassword, [])
  else
    match repo.find_by_email email with
    | some _ => (.error .alreadyExists, [.findByEmail email])
    | none =>
        let password_hash := hasher.hash password
        let user := repo.save username email password_hash
        (.ok user, [.findByEmail email, .hash password,
                    .save username email password_hash])

/-- `UserService.authenticate`: looks up by email, returns `none` when the
repository does; the password is never consulted (the hash check is
commented out in the source). -/
def authenticate (repo : UserRepository) (email password : String) :
    Option UserDTO :=
  match repo.find_by_email email with
  | none => none
  | some user => some user

/-- `UserService.get_user`: direct passthrough to `find_by_id`. -/
def get_user (repo : UserRepository) (user_id : Nat) : Option UserDTO :=
  repo.find_by_id user_id

end UserService

namespace JwtAuth

/-- `ACCESS_TOKEN_EXPIRE_MINUTES = 15`. -/
def ACCESS_TOKEN_EXPIRE_MINUTES : Nat := 15

/-- `REFRESH_TOKEN_EXPIRE_DAYS = 7`. -/
def REFRESH_TOKEN_EXPIRE_DAYS : Nat := 7

/-- A decoded JWT payload, as built by `create_access_token` /
`create_refresh_token`: subject (`payload.get("sub")`, which may be
absent), expiry, issued-at (as abstract timestamps in seconds) and the
token kind string (`"access"` or `"refresh"`). -/
structure Payload where
  sub : Option String
  exp : Nat
  iat : Nat
  type : String
deriving DecidableEq, Repr

/-- A serialized token as seen by `jwt.decode` keyed with `SECRET_KEY`:
either a correctly signed payload, or anything else (bad signature or
malformed), whose content is unrecoverable. -/
inductive Token where
  | signed (p : Payload)
  | malformed
deriving DecidableEq, Repr

/-- The two failure modes of `TokenManager.decode_token`:
`jwt.ExpiredSignatureError` becomes a 401 "Token has expired" and any other
`jwt.JWTError` becomes a 401 "Could not validate credentials"; the routes'
own "Invalid token type" / missing-subject rejections are also 401s of the
second kind. -/
inductive AuthError where
  | expired
  | invalid
deriving DecidableEq, Repr

/-- `TokenManager.create_access_token`: kind `"access"`, expires
`ACCESS_TOKEN_EXPIRE_MINUTES` minutes after issuance.  The subject is an
`Option` because the refresh route forwards `payload.get("sub")` without a
presence check. -/
def create_access_token (now : Nat) (user_id : Option String) : Token :=
  .signed { sub := user_id, exp := now + ACCESS_TOKEN_EXPIRE_MINUTES * 60,
            iat := now, type := "access" }

/-- `TokenManager.create_refresh_token`: kind `"refresh"`, expires
`REFRESH_TOKEN_EXPIRE_DAYS` days after issuance. -/
def create_refresh_token (now : Nat) (user_id : Option String) : Token :=
  .signed { sub := user_id, exp := now + REFRESH_TOKEN_EXPIRE_DAYS * 86400,
            iat := now, type := "refresh" }

/-- `TokenManager.decode_token`: `jwt.decode` verifies the signature first
(a token that is not validly signed never reaches the expiry check and
fails as `invalid`), then the `exp` claim. -/
def decode_token (now : Nat) (token : Token) : Except AuthError Payload :=
  match token with
  | .malformed => .error .invalid
  | .signed p => if p.exp ≤ now then .error .expired else .ok p

/-- `get_current_user`: decode, then require kind `"access"`, then require
a present subject; returns the subject. -/
def get_current_user (now : Nat) (token : Token) : Except AuthError String :=
  match decode_token now token with
  | .error e => .error e
  | .ok payload =>
      if payload.type ≠ "access" then .error .invalid
      else
        match payload.sub with
        | none => .error .invalid
        | some user_id => .ok user_id

/-- The `/auth/refresh` route handler `refresh_token`: decode, require kind
`"refresh"`, then mint a new access token for `payload.get("sub")` (with no
missing-subject check) and return it together with the SAME refresh token. -/
def refresh_token (now : Nat) (token : Token) :
    Except AuthError (Token × Token) :=
  match decode_token now token with
  | .error e => .error e
  | .ok payload =>
      if payload.type ≠ "refresh" then .error .invalid
      else .ok (create_access_token now payload.sub, token)

end JwtAuth

open UserService JwtAuth

/-- A concrete repository whose store is empty: `find_by_email` and
`find_by_id` report absent, `save` mints the record with id 1.  Used to
instantiate theorems at concrete inputs. -/
def demoRepoAbsent : UserRepository where
  save := fun u e _ => ⟨1, u, e, 0⟩
  find_by_id := fun _ => none
  find_by_email := fun _ => none

/-- A concrete repository that already holds a record under every email. -/
def demoRepoExisting : UserRepository where
  save := fun u e _ => ⟨2, u, e, 0⟩
  find_by_id := fun _ => some ⟨1, "existing", "john@example.com", 0⟩
  find_by_email := fun _ => some ⟨1, "existing", "john@example.com", 0⟩

/-- A concrete injective-looking hasher for instantiating theorems. -/
def demoHasher : PasswordHasher where
  hash := fun p => "hashed:" ++ p

/-- C1: when all three validations pass and `find_by_email` reports absent,
`create_user` calls the hasher once with the plaintext and `save` once with
the username, the email and the hashed value, in that order after the
lookup, and returns the repository's record unchanged; whenever the hash
differs from the plaintext, no `save` call carries the plaintext. -/
theorem create_user_success (repo : UserRepository) (hasher : PasswordHasher)
    (username email password : String)
    (hU : usernameOk username = true) (hE : emailOk email = true)
    (hP : passwordOk password = true)
    (hFind : repo.find_by_email email = none) :
    create_user repo hasher username email password =
      (.ok (repo.save username email (hasher.hash password)),
       [.findByEmail email, .hash password,
        .save username email (hasher.hash password)]) ∧
    (hasher.hash password ≠ password →
      Event.save username email password ∉
        (create_user repo hasher username email password).2) := by
  have h1 : create_user repo hasher username email password =
      (.ok (repo.save username email (hasher.hash password)),
       [.findByEmail email, .hash password,
        .save username email (hasher.hash password)]) := by
    simp [create_user, hU, hE, hP, hFind]
  refine ⟨h1, fun hne hmem => ?_⟩
  rw [h1] at hmem
  simp only [List.mem_cons, List.not_mem_nil, or_false] at hmem
  rcases hmem with h | h | h <;> first
    | exact Event.noConfusion h
    | exact hne (Event.save.inj h).2.2.symm

/-- C1 witness: the concrete creation of `"johndoe"` succeeds with exactly
the lookup, one hash of the plaintext and one save of the hashed value. -/
theorem create_user_success_witness :
    create_user demoRepoAbsent demoHasher "johndoe" "john@example.com"
        "SecurePass123" =
      (.ok ⟨1, "johndoe", "john@example.com", 0⟩,
       [.findByEmail "john@example.com", .hash "SecurePass123",
        .save "johndoe" "john@example.com" "hashed:SecurePass123"]) := by
  have h := create_user_success demoRepoAbsent demoHasher "johndoe"
    "john@example.com" "SecurePass123" (by decide) (by decide) (by decide) rfl
  rw [h.1]; rfl

/-- C4: with a valid username and email, every password that is shorter
than 12 characters or has no uppercase letter, no lowercase letter or no
digit is rejected with `WeakPassword` before any collaborator call; the
password `"SecurePass123"` is accepted and creation proceeds. -/
theorem password_policy (repo : UserRepository) (hasher : PasswordHasher)
    (username email password : String) :
    (usernameOk username = true → emailOk email = true →
      (password.length < 12 ∨ (∀ c ∈ password.data, c.isUpper = false) ∨
       (∀ c ∈ password.data, c.isLower = false) ∨
       (∀ c ∈ password.data, c.isDigit = false)) →
      create_user repo hasher username email password =
        (.error .weakPassword, [])) ∧
    (usernameOk username = true → emailOk email = true →
      repo.find_by_email email = none →
      (create_user repo hasher username email "SecurePass123").1 =
        .ok (repo.save username email (hasher.hash "SecurePass123"))) := by
  constructor
  · intro hU hE hbad
    have hpw : passwordOk password = false := by
      rcases hbad with h | h | h | h <;>
        simp [passwordOk, List.any_eq_true, List.all_eq_true] <;>
        intros <;> first | omega | simp_all
    simp [create_user, hU, hE, hpw]
  · intro hU hE hFind
    have hpw : passwordOk "SecurePass123" = true := by decide
    simp [create_user, hU, hE, hpw, hFind]

/-- C4 witness: an 11-character password is rejected with `WeakPassword`
and no collaborator call; `"SecurePass123"` is accepted. -/
theorem password_policy_witness :
    create_user demoRepoAbsent demoHasher "johndoe" "john@example.com"
        "Short1short" = (.error .weakPassword, []) ∧
    (create_user demoRepoAbsent demoHasher "johndoe" "john@example.com"
        "SecurePass123").1 = .ok ⟨1, "johndoe", "john@example.com", 0⟩ := by
  constructor
  · exact (password_policy demoRepoAbsent demoHasher "johndoe"
      "john@example.com" "Short1short").1 (by decide) (by decide)
      (Or.inl (by decide))
  · have h := (password_policy demoRepoAbsent demoHasher "johndoe"
      "john@example.com" "ignored").2 (by decide) (by decide) rfl
    rw [h]; rfl

/-- C6: `create_user` validates username, then email, then password; the
first failing field determines the error, and every validation failure
happens before any repository or hasher call (the event trace is empty). -/
theorem validation_order (repo : UserRepository) (hasher : PasswordHasher)
    (username email password : String) :
    (usernameOk username = false →
      create_user repo hasher username email password =
        (.error .invalidUsername, [])) ∧
    (usernameOk username = true → emailOk email = false →
      create_user repo hasher username email password =
        (.error .invalidEmail, [])) ∧
    (usernameOk username = true → emailOk email = true →
      passwordOk password = false →
      create_user repo hasher username email password =
        (.error .weakPassword, [])) := by
  refine ⟨fun hU => ?_, fun hU hE => ?_, fun hU hE hP => ?_⟩
  · simp [create_user, hU]
  · simp [create_user, hU, hE]
  · simp [create_user, hU, hE, hP]

/-- C6 witness: with username, email and password all invalid the reported
error is `InvalidUsername`; with only email and password invalid it is
`InvalidEmail`; with only the password invalid it is `WeakPassword` — in
each case with an empty collaborator trace. -/
theorem validation_order_witness :
    create_user demoRepoAbsent demoHasher "ab" "bad" "x" =
      (.error .invalidUsername, []) ∧
    create_user demoRepoAbsent demoHasher "johndoe" "bad" "x" =
      (.error .invalidEmail, []) ∧
    create_user demoRepoAbsent demoHasher "johndoe" "john@example.com" "x" =
      (.error .weakPassword, []) :=
  ⟨(validation_order demoRepoAbsent demoHasher "ab" "bad" "x").1 (by decide),
   (validation_order demoRepoAbsent demoHasher "johndoe" "bad" "x").2.1
     (by decide) (by decide),
   (validation_order demoRepoAbsent demoHasher "johndoe" "john@example.com"
     "x").2.2 (by decide) (by decide) (by decide)⟩

/-- C7: on validated input, when `find_by_email` reports an existing
record, `create_user` fails with `AlreadyExists` after exactly the one
lookup: neither the hasher nor `save` is ever called. -/
theorem create_user_already_exists (repo : UserRepository)
    (hasher : PasswordHasher) (username email password : String)
    (u : UserDTO) (hU : usernameOk username = true)
    (hE : emailOk email = true) (hP : passwordOk password = true)
    (hFind : repo.find_by_email email = some u) :
    create_user repo hasher username email password =
      (.error .alreadyExists, [.findByEmail email]) := by
  simp [create_user, hU, hE, hP, hFind]

/-- C7 witness: creating `"johndoe"` against the repository that already
holds the email fails with `AlreadyExists` and performs only the lookup. -/
theorem create_user_already_exists_witness :
    create_user demoRepoExisting demoHasher "johndoe" "john@example.com"
        "SecurePass123" =
      (.error .alreadyExists, [.findByEmail "john@example.com"]) :=
  create_user_already_exists demoRepoExisting demoHasher "johndoe"
    "john@example.com" "SecurePass123" ⟨1, "existing", "john@example.com", 0⟩
    (by decide) (by decide) (by decide) rfl

/-- C8: `get_user` and `authenticate` are passthroughs of the repository
lookups — absent exactly when the repository reports absent, the record
unchanged otherwise — and `authenticate` ignores its password argument. -/
theorem lookup_passthrough (repo : UserRepository) (user_id : Nat)
    (email p1 p2 : String) :
    get_user repo user_id = repo.find_by_id user_id ∧
    authenticate repo email p1 = repo.find_by_email email ∧
    authenticate repo email p1 = authenticate repo email p2 := by
  refine ⟨rfl, ?_, rfl⟩
  unfold authenticate
  cases repo.find_by_email email <;> rfl

/-- C2: an access token issued for subject `s` verifies to `s` on the
access path while the 15-minute lifetime has not elapsed; after it elapses
the same verification fails with `Expired`; an access token presented where
a refresh token is expected fails with `Invalid`; an unsigned or malformed
token fails with `Invalid` before any expiry or kind consideration, and an
expired signed token fails with `Expired` even when its kind would also
mismatch — signature, then expiry, then kind. -/
theorem access_token_verification (s : String) (t0 now : Nat) :
    (now < t0 + ACCESS_TOKEN_EXPIRE_MINUTES * 60 →
      get_current_user now (create_access_token t0 (some s)) = .ok s) ∧
    (t0 + ACCESS_TOKEN_EXPIRE_MINUTES * 60 < now →
      get_current_user now (create_access_token t0 (some s)) =
        .error .expired) ∧
    (now < t0 + ACCESS_TOKEN_EXPIRE_MINUTES * 60 →
      refresh_token now (create_access_token t0 (some s)) =
        .error .invalid) ∧
    (get_current_user now .malformed = .error .invalid) ∧
    (∀ p : Payload, p.exp ≤ now → p.type ≠ "access" →
      get_current_user now (.signed p) = .error .expired) := by
  refine ⟨fun h => ?_, fun h => ?_, fun h => ?_, rfl, fun p hexp _ => ?_⟩
  · have hlt : ¬ (t0 + ACCESS_TOKEN_EXPIRE_MINUTES * 60 ≤ now) :=
      Nat.not_le.mpr h
    simp [get_current_user, decode_token, create_access_token, hlt]
  · have hle : t0 + ACCESS_TOKEN_EXPIRE_MINUTES * 60 ≤ now :=
      Nat.le_of_lt h
    simp [get_current_user, decode_token, create_access_token, hle]
  · have hlt : ¬ (t0 + ACCESS_TOKEN_EXPIRE_MINUTES * 60 ≤ now) :=
      Nat.not_le.mpr h
    simp [refresh_token, decode_token, create_access_token, hlt]
  · simp [get_current_user, decode_token, hexp]

/-- C2 witness: issued at time 0 for `"user_123"`, the access token
verifies at time 10, is `Expired` at time 1000, and is `Invalid` on the
refresh path at time 10. -/
theorem access_token_verification_witness :
    get_current_user 10 (create_access_token 0 (some "user_123")) =
      .ok "user_123" ∧
    get_current_user 1000 (create_access_token 0 (some "user_123")) =
      .error .expired ∧
    refresh_token 10 (create_access_token 0 (some "user_123")) =
      .error .invalid :=
  ⟨(access_token_verification "user_123" 0 10).1 (by decide),
   (access_token_verification "user_123" 0 1000).2.1 (by decide),
   (access_token_verification "user_123" 0 10).2.2.1 (by decide)⟩

/-- C9: a valid, non-expired refresh token with subject `s` makes the
refresh route mint a fresh access token for `s` and hand back the very same
refresh token (no rotation); an access token on the refresh route fails
with `Invalid`. -/
theorem refresh_flow (s : String) (t0 now : Nat) :
    (now < t0 + REFRESH_TOKEN_EXPIRE_DAYS * 86400 →
      refresh_token now (create_refresh_token t0 (some s)) =
        .ok (create_access_token now (some s),
             create_refresh_token t0 (some s))) ∧
    (now < t0 + ACCESS_TOKEN_EXPIRE_MINUTES * 60 →
      refresh_token now (create_access_token t0 (some s)) =
        .error .invalid) := by
  constructor
  · intro h
    have hlt : ¬ (t0 + REFRESH_TOKEN_EXPIRE_DAYS * 86400 ≤ now) :=
      Nat.not_le.mpr h
    simp [refresh_token, decode_token, create_refresh_token, hlt]
  · intro h
    have hlt : ¬ (t0 + ACCESS_TOKEN_EXPIRE_MINUTES * 60 ≤ now) :=
      Nat.not_le.mpr h
    simp [refresh_token, decode_token, create_access_token, hlt]

/-- C9 witness: at time 10, refreshing the refresh token issued at time 0
for `"user_123"` yields a fresh access token for `"user_123"` together with
the original refresh token, and refreshing an access token is `Invalid`. -/
theorem refresh_flow_witness :
    refresh_token 10 (create_refresh_token 0 (some "user_123")) =
      .ok (create_access_token 10 (some "user_123"),
           create_refresh_token 0 (some "user_123")) ∧
    refresh_token 10 (create_access_token 0 (some "user_123")) =
      .error .invalid :=
  ⟨(refresh_flow "user_123" 0 10).1 (by decide),
   (refresh_flow "user_123" 0 10).2 (by decide)⟩

/-- C10: a validly signed, non-expired refresh token with no subject claim
is accepted by the refresh route, which mints an access token with an
absent subject; the access path (`get_current_user`) rejects a validly
signed, non-expired access token with no subject as `Invalid`. -/
theorem missing_subject_paths (t0 now : Nat) :
    (now < t0 + REFRESH_TOKEN_EXPIRE_DAYS * 86400 →
      refresh_token now (create_refresh_token t0 none) =
        .ok (create_access_token now none, create_refresh_token t0 none)) ∧
    (now < t0 + ACCESS_TOKEN_EXPIRE_MINUTES * 60 →
      get_current_user now (create_access_token t0 none) =
        .error .invalid) := by
  constructor
  · intro h
    have hlt : ¬ (t0 + REFRESH_TOKEN_EXPIRE_DAYS * 86400 ≤ now) :=
      Nat.not_le.mpr h
    simp [refresh_token, decode_token, create_refresh_token, hlt]
  · intro h
    have hlt : ¬ (t0 + ACCESS_TOKEN_EXPIRE_MINUTES * 60 ≤ now) :=
      Nat.not_le.mpr h
    simp [get_current_user, decode_token, create_access_token, hlt]

/-- C10 witness: at time 10, the subject-less refresh token from time 0 is
accepted and yields a subject-less access token, while the subject-less
access token is rejected on the access path. -/
theorem missing_subject_paths_witness :
    refresh_token 10 (create_refresh_token 0 none) =
      .ok (create_access_token 10 none, create_refresh_token 0 none) ∧
    get_current_user 10 (create_access_token 0 none) = .error .invalid :=
  ⟨(missing_subject_paths 0 10).1 (by decide),
   (missing_subject_paths 0 10).2 (by decide)⟩

/-- C3: the username `"abc\n"` contains a character outside `[A-Za-z0-9_]`,
yet `create_user` does not fail with `InvalidUsername`: Python's `$` in
`re.match(r"^[a-zA-Z0-9_]\x7b3,30\x7d$", ...)` also matches just before a
single final newline, so validation passes and the user is created. -/
theorem username_trailing_newline_accepted :
    ('\n' ∈ "abc\n".data ∧ isWordChar '\n' = false) ∧
    create_user demoRepoAbsent demoHasher "abc\n" "john@example.com"
        "SecurePass123" =
      (.ok ⟨1, "abc\n", "john@example.com", 0⟩,
       [.findByEmail "john@example.com", .hash "SecurePass123",
        .save "abc\n" "john@example.com" "hashed:SecurePass123"]) :=
  ⟨⟨by decide, by decide⟩, rfl⟩

/-- C5: the email `"a@b.cc\n"` contains a whitespace character (and its
domain's top-level label `"cc\n"` is not a label of letters), yet
`create_user` does not fail with `InvalidEmail`: the `$` of `EMAIL_REGEX`
under `re.match` also matches just before a single final newline, so
validation passes and the user is created with that email. -/
theorem email_trailing_newline_accepted :
    ('\n' ∈ "a@b.cc\n".data ∧ '\n'.isWhitespace = true) ∧
    create_user demoRepoAbsent demoHasher "johndoe" "a@b.cc\n"
        "SecurePass123" =
      (.ok ⟨1, "johndoe", "a@b.cc\n", 0⟩,
       [.findByEmail "a@b.cc\n", .hash "SecurePass123",
        .save "johndoe" "a@b.cc\n" "hashed:SecurePass123"]) :=
  ⟨⟨by decide, by decide⟩, rfl⟩
